import Mathlib

/-!
Shallow embedding of the did-jis TIBET provenance core (src/tibet.ts,
src/consent.ts, src/types.ts).

Modelling conventions:
* JS `Map<string, T>` becomes an association list `List (String × T)` with
  `mapGet` (first match) and `mapSet` (replace-in-place or append), matching
  `Map.get` / `Map.set` on the unique-key maps the source maintains.
* Wall-clock instants (`Date.now()`, ISO-8601 strings produced by
  `toISOString`) become `Int` milliseconds.  `toISOString` is an
  order-preserving injection from instants to strings, so comparing parsed
  dates in the source corresponds to comparing the `Int`s here, and the
  timestamp inside the digested payload is serialised from the `Int`.
* Random `generateId()` outputs and the ambient clock are passed in as
  explicit arguments (`newId`, `now`): the source's only nondeterminism.
* JS `number` trust-score arithmetic on the decimal weights 0.4/0.3/0.2/0.1
  is modelled exactly over `ℚ`.
* The digest is the source's deterministic fallback hash (tibet.ts lines
  44-51) over a JSON serialisation of the canonical token fields; like
  `JSON.stringify`, the serialiser drops absent (undefined) optional fields
  and keeps object keys in their written order.
* `async` functions have no internal concurrency; they are modelled as pure
  state-passing functions.
-/

set_option maxRecDepth 2048

namespace DidJis

/-- JSON-like values, for the free-form `what` / `where` / `metadata` fields. -/
inductive JsonVal where
  | str (s : String)
  | num (n : Int)
  | bool (b : Bool)
  | null
  | arr (elems : List JsonVal)
  | obj (fields : List (String × JsonVal))

/-- Escape a character for a JSON string literal (quote and backslash). -/
def jsonEscapeChar (c : Char) : String :=
  if c = '"' then "\\\"" else if c = '\\' then "\\\\" else String.singleton c

/-- Quote a string as a JSON string literal. -/
def jsonQuote (s : String) : String :=
  "\"" ++ String.join (s.data.map jsonEscapeChar) ++ "\""

mutual

/-- Serialise a JSON value, mirroring `JSON.stringify` (keys in written order). -/
def JsonVal.stringify : JsonVal → String
  | .str s => jsonQuote s
  | .num n => toString n
  | .bool b => cond b "true" "false"
  | .null => "null"
  | .arr xs => "[" ++ stringifyElems xs ++ "]"
  | .obj fs => "\x7b" ++ stringifyFields fs ++ "\x7d"

/-- Serialise the comma-separated elements of a JSON array. -/
def stringifyElems : List JsonVal → String
  | [] => ""
  | [x] => x.stringify
  | x :: y :: xs => x.stringify ++ "," ++ stringifyElems (y :: xs)

/-- Serialise the comma-separated `key:value` pairs of a JSON object. -/
def stringifyFields : List (String × JsonVal) → String
  | [] => ""
  | [(k, v)] => jsonQuote k ++ ":" ++ v.stringify
  | (k, v) :: f :: fs => jsonQuote k ++ ":" ++ v.stringify ++ "," ++ stringifyFields (f :: fs)

end

/-- Coerce to a 32-bit signed integer, as JS bitwise operators do. -/
def toInt32 (n : Int) : Int :=
  let m := n % 4294967296
  if m < 2147483648 then m else m - 4294967296

/-- One step of the source's fallback hash:
`hash = (hash << 5) - hash + charCode; hash = hash & hash` (tibet.ts 46-49). -/
def hashStep (h : Int) (c : Char) : Int :=
  toInt32 (toInt32 (h * 32) - h + (c.toNat : Int))

/-- The accumulated fallback hash over the characters of the input. -/
def fallbackHash (s : String) : Int :=
  s.data.foldl hashStep 0

/-- Lowercase hexadecimal rendering of a natural number (`toString(16)`). -/
def toHexString (n : Nat) : String :=
  (Nat.toDigits 16 n).asString

/-- `String.prototype.padStart(len, c)`. -/
def padStart (s : String) (len : Nat) (c : Char) : String :=
  String.mk (List.replicate (len - s.length) c) ++ s

/-- `generateSignature` (tibet.ts 36-52), deterministic digest branch:
`Math.abs(hash).toString(16).padStart(16, '0')`. -/
def generateSignature (data : String) : String :=
  padStart (toHexString (fallbackHash data).natAbs) 16 '0'

/-- `TIBETTokenType` (types.ts). -/
inductive TIBETTokenType where
  | bilateral_consent
  | unilateral_action
  | verification
  | revocation
  | delegation
  | audit
  | threat
deriving DecidableEq

/-- String form of a token type, as it appears in the digested JSON. -/
def TIBETTokenType.toStr : TIBETTokenType → String
  | .bilateral_consent => "bilateral_consent"
  | .unilateral_action => "unilateral_action"
  | .verification => "verification"
  | .revocation => "revocation"
  | .delegation => "delegation"
  | .audit => "audit"
  | .threat => "threat"

/-- `TIBETState` (types.ts). -/
inductive TIBETState where
  | CREATED
  | PROPOSED
  | ACCEPTED
  | REJECTED
  | EXPIRED
  | REVOKED
deriving DecidableEq

/-- `WWWwProvenance` (types.ts).  `with` and `where` are Lean keywords, so the
fields are named `withParties` and `whereCtx`. -/
structure WWWwProvenance where
  what : JsonVal
  withParties : Option (List String)
  whereCtx : Option JsonVal
  why : String

/-- JSON form of a provenance record; absent optional fields are dropped,
exactly as `JSON.stringify` drops `undefined` properties. -/
def WWWwProvenance.toJson (p : WWWwProvenance) : JsonVal :=
  .obj ([("what", p.what)]
    ++ (match p.withParties with
        | some ws => [("with", JsonVal.arr (ws.map JsonVal.str))]
        | none => [])
    ++ (match p.whereCtx with
        | some w => [("where", w)]
        | none => [])
    ++ [("why", JsonVal.str p.why)])

/-- The canonical fields fed to the digest: the `tokenData` object literal of
`createToken` (tibet.ts 105-112) and of `verify` (tibet.ts 159-166). -/
structure TokenData where
  tokenId : String
  type : TIBETTokenType
  actor : String
  provenance : WWWwProvenance
  timestamp : Int
  parentId : Option String

/-- `JSON.stringify(tokenData)`: keys in written order, `parentId` dropped
when absent. -/
def TokenData.toJson (td : TokenData) : JsonVal :=
  .obj ([("tokenId", JsonVal.str td.tokenId),
         ("type", JsonVal.str td.type.toStr),
         ("actor", JsonVal.str td.actor),
         ("provenance", td.provenance.toJson),
         ("timestamp", JsonVal.str (toString td.timestamp))]
    ++ (match td.parentId with
        | some p => [("parentId", JsonVal.str p)]
        | none => []))

/-- `generateSignature(JSON.stringify(tokenData))`. -/
def TokenData.digest (td : TokenData) : String :=
  generateSignature td.toJson.stringify

/-- `TIBETToken` (types.ts). -/
structure TIBETToken where
  tokenId : String
  type : TIBETTokenType
  actor : String
  provenance : WWWwProvenance
  timestamp : Int
  state : TIBETState
  signature : String
  parentId : Option String
  expiresAt : Option Int
  metadata : Option JsonVal

/-- The canonical fields of a stored token, as `verify` rebuilds them. -/
def TIBETToken.tokenData (t : TIBETToken) : TokenData :=
  { tokenId := t.tokenId, type := t.type, actor := t.actor,
    provenance := t.provenance, timestamp := t.timestamp, parentId := t.parentId }

/-- `Map.get`: first (unique) binding for the key. -/
def mapGet {α : Type} : List (String × α) → String → Option α
  | [], _ => none
  | (k', v) :: rest, k => if k' = k then some v else mapGet rest k

/-- `Map.set`: overwrite the existing binding in place, else append. -/
def mapSet {α : Type} : List (String × α) → String → α → List (String × α)
  | [], k, v => [(k, v)]
  | (k', v') :: rest, k, v =>
      if k' = k then (k, v) :: rest else (k', v') :: mapSet rest k v

/-- The `TIBET` class state: the private token map and the default actor. -/
structure TIBETStore where
  tokens : List (String × TIBETToken)
  defaultActor : String

/-- JS `v || d` on an optional string: `undefined` and `""` are falsy. -/
def jsOrStr (v : Option String) (d : String) : String :=
  match v with
  | some s => if s = "" then d else s
  | none => d

/-- `new TIBET(actor)`: `defaultActor = actor || 'anonymous'`. -/
def TIBET.init (actor : Option String) : TIBETStore :=
  { tokens := [], defaultActor := jsOrStr actor "anonymous" }

/-- The parameter object of `createToken` (tibet.ts 83-92). -/
structure CreateParams where
  type : TIBETTokenType
  what : JsonVal
  withParties : Option (List String) := none
  whereCtx : Option JsonVal := none
  why : String
  actor : Option String := none
  parentId : Option String := none
  expiresIn : Option Int := none
  metadata : Option JsonVal := none

/-- `TIBET.createToken` (tibet.ts 83-129).  `newId` is the generated UUID and
`now` the clock reading.  Note `params.expiresIn ? ... : undefined`:
JS truthiness makes an `expiresIn` of `0` fall to `undefined`, while any
nonzero value (negative included) yields `expiresAt = now + expiresIn`. -/
def TIBET.createToken (s : TIBETStore) (p : CreateParams) (newId : String)
    (now : Int) : TIBETStore × TIBETToken :=
  let actor := jsOrStr p.actor s.defaultActor
  let provenance : WWWwProvenance :=
    { what := p.what, withParties := p.withParties,
      whereCtx := p.whereCtx, why := p.why }
  let td : TokenData :=
    { tokenId := newId, type := p.type, actor := actor,
      provenance := provenance, timestamp := now, parentId := p.parentId }
  let token : TIBETToken :=
    { tokenId := newId, type := p.type, actor := actor,
      provenance := provenance, timestamp := now, state := .CREATED,
      signature := td.digest, parentId := p.parentId,
      expiresAt := (match p.expiresIn with
                    | some e => if e = 0 then none else some (now + e)
                    | none => none),
      metadata := p.metadata }
  ({ s with tokens := mapSet s.tokens newId token }, token)

/-- The `details` record of a verification result (types.ts). -/
structure VerificationDetails where
  signatureValid : Bool
  notExpired : Bool
  chainIntact : Bool
  actorTrusted : Bool

/-- `VerificationResult` (types.ts); the trust score is an exact rational. -/
structure VerificationResult where
  valid : Bool
  tokenId : String
  trustScore : ℚ
  details : VerificationDetails
  error : Option String

/-- The `tokenOrId` argument of `verify`: a token object or an id string. -/
inductive TokenOrId where
  | token (t : TIBETToken)
  | id (i : String)

/-- The resolution step of `verify` (tibet.ts 135-136): a string is looked up
in the store, a token object is used as-is (objects are always truthy). -/
def TIBET.resolve (s : TIBETStore) (x : TokenOrId) : Option TIBETToken :=
  match x with
  | .token t => some t
  | .id i => mapGet s.tokens i

/-- `TIBET.verify` (tibet.ts 134-195), with `now` the clock reading used for
the expiry comparison `new Date(token.expiresAt) > new Date()`. -/
def TIBET.verify (s : TIBETStore) (x : TokenOrId) (now : Int) :
    VerificationResult :=
  match TIBET.resolve s x with
  | none =>
    { valid := false,
      tokenId := (match x with | .id i => i | .token _ => "unknown"),
      trustScore := 0,
      details := ⟨false, false, false, false⟩,
      error := some "Token not found" }
  | some token =>
    let notExpired : Bool :=
      match token.expiresAt with
      | some e => decide (now < e)
      | none => true
    let signatureValid : Bool := decide (token.signature = token.tokenData.digest)
    let chainIntact : Bool :=
      match token.parentId with
      | some pid => (mapGet s.tokens pid).isSome
      | none => true
    let actorTrusted : Bool := decide (token.actor ≠ "anonymous")
    let trustScore : ℚ :=
      (if signatureValid then (4 : ℚ)/10 else 0)
      + (if notExpired then (3 : ℚ)/10 else 0)
      + (if chainIntact then (2 : ℚ)/10 else 0)
      + (if actorTrusted then (1 : ℚ)/10 else 0)
    { valid := signatureValid && notExpired && chainIntact,
      tokenId := token.tokenId,
      trustScore := trustScore,
      details := ⟨signatureValid, notExpired, chainIntact, actorTrusted⟩,
      error := none }

/-- `ProvenanceChain` (types.ts): tokens in ancestor-to-descendant order. -/
structure ProvenanceChain where
  length : Nat
  tokens : List TIBETToken
  origin : TIBETToken
  current : TIBETToken

/-- The `while (current)` loop of `getChain` (tibet.ts 207-212), step-indexed:
each iteration prepends (`unshift`) the current token, then follows
`parentId` through the store.  `none` means the given number of iterations
did not complete the walk — with unlimited fuel the source loop would still
be running.  The source has no cycle guard, so the fuel is the only bound. -/
def getChainAux (tokens : List (String × TIBETToken)) :
    Nat → TIBETToken → List TIBETToken → Option (List TIBETToken)
  | 0, _, _ => none
  | fuel + 1, cur, acc =>
    let acc' := cur :: acc
    match cur.parentId with
    | none => some acc'
    | some pid =>
      match mapGet tokens pid with
      | none => some acc'
      | some p => getChainAux tokens fuel p acc'

/-- Outcome of a bounded run of `getChain`: `absent` is the source's `null`,
`diverged` means the walk was still following resolving parent links when
the step bound ran out (the unbounded source loop does not terminate when
this holds for every bound). -/
inductive ChainOutcome where
  | absent
  | diverged
  | chain (c : ProvenanceChain)

/-- `TIBET.getChain` (tibet.ts 200-220), run for at most `fuel` loop
iterations. -/
def TIBET.getChain (s : TIBETStore) (tokenId : String) (fuel : Nat) :
    ChainOutcome :=
  match mapGet s.tokens tokenId with
  | none => .absent
  | some cur =>
    match getChainAux s.tokens fuel cur [] with
    | none => .diverged
    | some toks =>
      .chain { length := toks.length, tokens := toks,
               origin := toks.headD cur, current := toks.getLastD cur }

/-- `TIBET.updateState` (tibet.ts 225-233): soft lookup-and-update. -/
def TIBET.updateState (s : TIBETStore) (tokenId : String)
    (newState : TIBETState) : TIBETStore × Option TIBETToken :=
  match mapGet s.tokens tokenId with
  | none => (s, none)
  | some t =>
    let t' := { t with state := newState }
    ({ s with tokens := mapSet s.tokens tokenId t' }, some t')

/-- `BilateralConsent` (types.ts).  `from` is a Lean keyword, so the source's
`from`/`to` fields are named `fromDid`/`toDid`. -/
structure BilateralConsent where
  fromDid : String
  toDid : String
  action : String
  purpose : String
  context : Option JsonVal := none
  expiresIn : Option Int := none

/-- `ConsentResponse` (types.ts). -/
structure ConsentResponse where
  proposalId : String
  accepted : Bool
  token : TIBETToken
  reason : Option String

/-- The `BilateralConsentManager` state: its private `TIBET` instance and the
proposal index.  In the source a `ConsentProposal` holds a reference to the
very object stored in the token map, so its mutable `state` field is shared
with the store; here the index entry is the token as of `propose` time, and
`accept`/`reject` read only its immutable fields (`provenance`), while every
read of the mutable `state` goes through the token store, which is the
authoritative holder of state in this model. -/
structure ConsentState where
  tibet : TIBETStore
  proposals : List (String × TIBETToken)

/-- `new BilateralConsentManager(actorDid)` (consent.ts 46-48). -/
def BilateralConsentManager.init (actorDid : Option String) : ConsentState :=
  { tibet := TIBET.init actorDid, proposals := [] }

/-- `BilateralConsentManager.propose` (consent.ts 55-83): mints the proposal
token, sets its state to PROPOSED, registers it in the proposal index. -/
def BilateralConsentManager.propose (st : ConsentState) (c : BilateralConsent)
    (newId : String) (now : Int) : ConsentState × TIBETToken :=
  let p : CreateParams :=
    { type := .bilateral_consent,
      what := .obj [("action", .str c.action), ("from", .str c.fromDid),
                    ("to", .str c.toDid)],
      withParties := some [c.fromDid, c.toDid],
      whereCtx := c.context,
      why := c.purpose,
      actor := some c.fromDid,
      expiresIn := c.expiresIn,
      metadata := some (.obj [("consentType", .str "bilateral"),
                              ("proposedAt", .str (toString now))]) }
  let res := TIBET.createToken st.tibet p newId now
  let upd := TIBET.updateState res.1 res.2.tokenId .PROPOSED
  let proposalToken := { res.2 with state := TIBETState.PROPOSED }
  ({ tibet := upd.1,
     proposals := mapSet st.proposals res.2.tokenId proposalToken },
   proposalToken)

/-- JS truthiness of a JSON value (`if (expectedTo && ...)`). -/
def jsTruthy : JsonVal → Bool
  | .str s => decide (s ≠ "")
  | .num n => decide (n ≠ 0)
  | .bool b => b
  | .null => false
  | .arr _ => true
  | .obj _ => true

/-- JS strict equality between a JSON value and a string
(`expectedTo !== acceptorDid` negated). -/
def jsStrictEqStr (v : JsonVal) (s : String) : Bool :=
  match v with
  | .str t => decide (t = s)
  | _ => false

/-- `(provenance.what as Record<string, unknown>)?.to`-style access: property
lookup on an object value, `undefined` on anything else (a string has no
such property). -/
def objGet? (v : JsonVal) (k : String) : Option JsonVal :=
  match v with
  | .obj fs => mapGet fs k
  | _ => none

/-- `BilateralConsentManager.accept` (consent.ts 90-131).  The returned state
carries every mutation performed before a `throw`; both failure paths throw
before any write, so they return the input state unchanged. -/
def BilateralConsentManager.accept (st : ConsentState)
    (proposalId acceptorDid : String) (newId : String) (now : Int) :
    ConsentState × Except String ConsentResponse :=
  match mapGet st.proposals proposalId with
  | none => (st, .error ("Proposal not found: " ++ proposalId))
  | some originalToken =>
    let expectedTo := objGet? originalToken.provenance.what "to"
    let mismatch : Bool :=
      match expectedTo with
      | some v => jsTruthy v && !(jsStrictEqStr v acceptorDid)
      | none => false
    if mismatch then
      (st, .error "Acceptor does not match intended recipient")
    else
      let originalAction := objGet? originalToken.provenance.what "action"
      let p : CreateParams :=
        { type := .bilateral_consent,
          what := .obj ([("action", JsonVal.str "consent_accepted")]
            ++ (match originalAction with
                | some a => [("originalAction", a)]
                | none => [])),
          withParties := originalToken.provenance.withParties,
          whereCtx := originalToken.provenance.whereCtx,
          why := "Accepted: " ++ originalToken.provenance.why,
          actor := some acceptorDid,
          parentId := some proposalId,
          metadata := some (.obj [("responseType", .str "acceptance"),
                                  ("acceptedAt", .str (toString now))]) }
      let res := TIBET.createToken st.tibet p newId now
      let upd1 := TIBET.updateState res.1 res.2.tokenId .ACCEPTED
      let upd2 := TIBET.updateState upd1.1 proposalId .ACCEPTED
      ({ tibet := upd2.1, proposals := st.proposals },
       .ok { proposalId := proposalId, accepted := true,
             token := { res.2 with state := TIBETState.ACCEPTED },
             reason := none })

/-- `BilateralConsentManager.reject` (consent.ts 138-179): same lookup
failure as `accept`, no recipient check; note `reason || ...` treats an
empty-string reason as absent for the `why` field. -/
def BilateralConsentManager.reject (st : ConsentState)
    (proposalId rejectorDid : String) (reason : Option String)
    (newId : String) (now : Int) :
    ConsentState × Except String ConsentResponse :=
  match mapGet st.proposals proposalId with
  | none => (st, .error ("Proposal not found: " ++ proposalId))
  | some originalToken =>
    let originalAction := objGet? originalToken.provenance.what "action"
    let p : CreateParams :=
      { type := .bilateral_consent,
        what := .obj ([("action", JsonVal.str "consent_rejected")]
          ++ (match originalAction with
              | some a => [("originalAction", a)]
              | none => [])),
        withParties := originalToken.provenance.withParties,
        whereCtx := originalToken.provenance.whereCtx,
        why := jsOrStr reason ("Rejected: " ++ originalToken.provenance.why),
        actor := some rejectorDid,
        parentId := some proposalId,
        metadata := some (.obj ([("responseType", JsonVal.str "rejection"),
                                 ("rejectedAt", JsonVal.str (toString now))]
          ++ (match reason with
              | some r => [("reason", JsonVal.str r)]
              | none => []))) }
    let res := TIBET.createToken st.tibet p newId now
    let upd1 := TIBET.updateState res.1 res.2.tokenId .REJECTED
    let upd2 := TIBET.updateState upd1.1 proposalId .REJECTED
    ({ tibet := upd2.1, proposals := st.proposals },
     .ok { proposalId := proposalId, accepted := false,
           token := { res.2 with state := TIBETState.REJECTED },
           reason := reason })

/-! ## Unfolding lemmas

Spelled-out forms of `createToken` and `verify`, each proved by `rfl`.
They let the proofs below reason about the verification facets without ever
evaluating the digest function on a concrete string. -/

/-- The token returned by `createToken`, spelled out. -/
theorem createToken_snd (s : TIBETStore) (p : CreateParams) (newId : String)
    (now : Int) :
    (TIBET.createToken s p newId now).2 =
    { tokenId := newId, type := p.type, actor := jsOrStr p.actor s.defaultActor,
      provenance := { what := p.what, withParties := p.withParties,
                      whereCtx := p.whereCtx, why := p.why },
      timestamp := now, state := .CREATED,
      signature := TokenData.digest
        { tokenId := newId, type := p.type,
          actor := jsOrStr p.actor s.defaultActor,
          provenance := { what := p.what, withParties := p.withParties,
                          whereCtx := p.whereCtx, why := p.why },
          timestamp := now, parentId := p.parentId },
      parentId := p.parentId,
      expiresAt := (match p.expiresIn with
                    | some e => if e = 0 then none else some (now + e)
                    | none => none),
      metadata := p.metadata } := rfl

/-- The store returned by `createToken`: the new token is inserted under its
fresh id. -/
theorem createToken_fst (s : TIBETStore) (p : CreateParams) (newId : String)
    (now : Int) :
    (TIBET.createToken s p newId now).1 =
    { s with tokens := mapSet s.tokens newId (TIBET.createToken s p newId now).2 } := rfl

/-- The `signatureValid` facet of verifying a token object. -/
theorem verify_token_signatureValid (s : TIBETStore) (t : TIBETToken) (now : Int) :
    (TIBET.verify s (.token t) now).details.signatureValid
      = decide (t.signature = t.tokenData.digest) := rfl

/-- The `notExpired` facet of verifying a token object. -/
theorem verify_token_notExpired (s : TIBETStore) (t : TIBETToken) (now : Int) :
    (TIBET.verify s (.token t) now).details.notExpired
      = (match t.expiresAt with | some e => decide (now < e) | none => true) := rfl

/-- The `chainIntact` facet of verifying a token object. -/
theorem verify_token_chainIntact (s : TIBETStore) (t : TIBETToken) (now : Int) :
    (TIBET.verify s (.token t) now).details.chainIntact
      = (match t.parentId with
         | some pid => (mapGet s.tokens pid).isSome
         | none => true) := rfl

/-- The `actorTrusted` facet of verifying a token object. -/
theorem verify_token_actorTrusted (s : TIBETStore) (t : TIBETToken) (now : Int) :
    (TIBET.verify s (.token t) now).details.actorTrusted
      = decide (t.actor ≠ "anonymous") := rfl

/-- The `valid` flag of verifying a token object. -/
theorem verify_token_valid (s : TIBETStore) (t : TIBETToken) (now : Int) :
    (TIBET.verify s (.token t) now).valid
      = (decide (t.signature = t.tokenData.digest)
         && (match t.expiresAt with | some e => decide (now < e) | none => true)
         && (match t.parentId with
             | some pid => (mapGet s.tokens pid).isSome
             | none => true)) := rfl

/-- The trust score of verifying a token object. -/
theorem verify_token_trustScore (s : TIBETStore) (t : TIBETToken) (now : Int) :
    (TIBET.verify s (.token t) now).trustScore
      = (if decide (t.signature = t.tokenData.digest) then (4 : ℚ)/10 else 0)
        + (if (match t.expiresAt with | some e => decide (now < e) | none => true)
           then (3 : ℚ)/10 else 0)
        + (if (match t.parentId with
               | some pid => (mapGet s.tokens pid).isSome
               | none => true) then (2 : ℚ)/10 else 0)
        + (if decide (t.actor ≠ "anonymous") then (1 : ℚ)/10 else 0) := rfl

/-- The result of verifying a token object, spelled out facet by facet. -/
theorem verify_token_eq (s : TIBETStore) (t : TIBETToken) (now : Int) :
    TIBET.verify s (.token t) now =
    { valid := decide (t.signature = t.tokenData.digest)
          && (match t.expiresAt with | some e => decide (now < e) | none => true)
          && (match t.parentId with
              | some pid => (mapGet s.tokens pid).isSome
              | none => true),
      tokenId := t.tokenId,
      trustScore :=
        (if decide (t.signature = t.tokenData.digest) then (4 : ℚ)/10 else 0)
        + (if (match t.expiresAt with | some e => decide (now < e) | none => true)
           then (3 : ℚ)/10 else 0)
        + (if (match t.parentId with
               | some pid => (mapGet s.tokens pid).isSome
               | none => true) then (2 : ℚ)/10 else 0)
        + (if decide (t.actor ≠ "anonymous") then (1 : ℚ)/10 else 0),
      details := ⟨decide (t.signature = t.tokenData.digest),
                  (match t.expiresAt with | some e => decide (now < e) | none => true),
                  (match t.parentId with
                   | some pid => (mapGet s.tokens pid).isSome
                   | none => true),
                  decide (t.actor ≠ "anonymous")⟩,
      error := none } := rfl

/-! ## Concrete sample data used by witnesses and counterexamples -/

/-- A minimal provenance record. -/
def sampleProv : WWWwProvenance :=
  { what := .str "w", withParties := none, whereCtx := none, why := "y" }

/-- A parent-free token with the given id, actor and state, whose stored
signature is the genuine digest of its canonical fields. -/
def mkSimpleToken (i actor : String) (st : TIBETState) : TIBETToken :=
  { tokenId := i, type := .audit, actor := actor, provenance := sampleProv,
    timestamp := 0, state := st,
    signature := TokenData.digest
      { tokenId := i, type := .audit, actor := actor, provenance := sampleProv,
        timestamp := 0, parentId := none },
    parentId := none, expiresAt := none, metadata := none }

/-- The canonical fields of `mkSimpleToken`, spelled out. -/
theorem mkSimpleToken_tokenData (i actor : String) (st : TIBETState) :
    (mkSimpleToken i actor st).tokenData =
    { tokenId := i, type := .audit, actor := actor, provenance := sampleProv,
      timestamp := 0, parentId := none } := rfl

/-- `mkSimpleToken` is well formed: its stored signature is the digest of its
canonical fields. -/
theorem mkSimpleToken_wellformed (i actor : String) (st : TIBETState) :
    (mkSimpleToken i actor st).signature
      = (mkSimpleToken i actor st).tokenData.digest := by
  rw [mkSimpleToken_tokenData]; rfl

/-! ## Claims about the Verifier -/

/-- C1: for every token resolvable by the Verifier, `verify` returns
`valid = signatureValid && notExpired && chainIntact` (`actorTrusted` does
not affect validity), and `trustScore` is the weighted sum 0.4·signatureValid
+ 0.3·notExpired + 0.2·chainIntact + 0.1·(actor differs from the anonymous
sentinel). -/
theorem verify_valid_iff_and_trustScore (s : TIBETStore) (x : TokenOrId)
    (now : Int) (token : TIBETToken) (h : TIBET.resolve s x = some token) :
    (TIBET.verify s x now).valid =
      ((TIBET.verify s x now).details.signatureValid &&
       (TIBET.verify s x now).details.notExpired &&
       (TIBET.verify s x now).details.chainIntact) ∧
    (TIBET.verify s x now).details.actorTrusted
      = decide (token.actor ≠ "anonymous") ∧
    (TIBET.verify s x now).trustScore =
      (if (TIBET.verify s x now).details.signatureValid then (4 : ℚ)/10 else 0)
      + (if (TIBET.verify s x now).details.notExpired then (3 : ℚ)/10 else 0)
      + (if (TIBET.verify s x now).details.chainIntact then (2 : ℚ)/10 else 0)
      + (if token.actor ≠ "anonymous" then (1 : ℚ)/10 else 0) := by
  simp only [TIBET.verify, h]
  by_cases ha : token.actor = "anonymous" <;> simp [ha]

/-- Witness for C1 at a concrete store, token and time. -/
theorem verify_valid_iff_and_trustScore_witness :
    (TIBET.verify (TIBET.init none) (.token (mkSimpleToken "t1" "alice" .CREATED)) 0).valid =
      ((TIBET.verify (TIBET.init none) (.token (mkSimpleToken "t1" "alice" .CREATED)) 0).details.signatureValid &&
       (TIBET.verify (TIBET.init none) (.token (mkSimpleToken "t1" "alice" .CREATED)) 0).details.notExpired &&
       (TIBET.verify (TIBET.init none) (.token (mkSimpleToken "t1" "alice" .CREATED)) 0).details.chainIntact) ∧
    (TIBET.verify (TIBET.init none) (.token (mkSimpleToken "t1" "alice" .CREATED)) 0).details.actorTrusted
      = decide ((mkSimpleToken "t1" "alice" .CREATED).actor ≠ "anonymous") ∧
    (TIBET.verify (TIBET.init none) (.token (mkSimpleToken "t1" "alice" .CREATED)) 0).trustScore =
      (if (TIBET.verify (TIBET.init none) (.token (mkSimpleToken "t1" "alice" .CREATED)) 0).details.signatureValid then (4 : ℚ)/10 else 0)
      + (if (TIBET.verify (TIBET.init none) (.token (mkSimpleToken "t1" "alice" .CREATED)) 0).details.notExpired then (3 : ℚ)/10 else 0)
      + (if (TIBET.verify (TIBET.init none) (.token (mkSimpleToken "t1" "alice" .CREATED)) 0).details.chainIntact then (2 : ℚ)/10 else 0)
      + (if (mkSimpleToken "t1" "alice" .CREATED).actor ≠ "anonymous" then (1 : ℚ)/10 else 0) :=
  verify_valid_iff_and_trustScore (TIBET.init none)
    (.token (mkSimpleToken "t1" "alice" .CREATED)) 0
    (mkSimpleToken "t1" "alice" .CREATED) rfl

/-- C6: the digest depends only on the canonical fields
(id, kind, actor, provenance, createdAt, parentId): two tokens that agree on
those fields and on the stored signature — i.e. differ at most in `state`,
`expiresAt`, `metadata` — receive the same `signatureValid` verdict from
`verify`, against any store and at any time. -/
theorem signatureValid_ignores_mutable_fields (s : TIBETStore)
    (t₁ t₂ : TIBETToken) (now : Int)
    (hcanon : t₁.tokenData = t₂.tokenData) (hsig : t₁.signature = t₂.signature) :
    (TIBET.verify s (.token t₁) now).details.signatureValid =
      (TIBET.verify s (.token t₂) now).details.signatureValid := by
  simp only [TIBET.verify, TIBET.resolve, hcanon, hsig]

/-- Witness for C6: mutating `state`, `expiresAt` and `metadata` of a freshly
created token leaves the `signatureValid` verdict unchanged. -/
theorem signatureValid_ignores_mutable_fields_witness :
    (TIBET.verify (TIBET.init none)
      (.token (mkSimpleToken "t6" "alice" .CREATED)) 0).details.signatureValid =
    (TIBET.verify (TIBET.init none)
      (.token { mkSimpleToken "t6" "alice" .CREATED with
                  state := TIBETState.ACCEPTED, expiresAt := some 99,
                  metadata := some (.str "extra") }) 0).details.signatureValid :=
  signatureValid_ignores_mutable_fields (TIBET.init none)
    (mkSimpleToken "t6" "alice" .CREATED)
    { mkSimpleToken "t6" "alice" .CREATED with
        state := TIBETState.ACCEPTED, expiresAt := some 99,
        metadata := some (.str "extra") } 0 rfl rfl

/-- C10: calling `verify` with a token object (not an id string) never yields
the "Token not found" result — the object is verified directly against the
store — and a well-formed token (stored signature equal to the digest of its
canonical fields) obtains `signatureValid = true` even when no token with its
id is present in the store. -/
theorem verify_token_object_never_not_found (s : TIBETStore)
    (t : TIBETToken) (now : Int) :
    (TIBET.verify s (.token t) now).error = none ∧
    (t.signature = t.tokenData.digest →
      (TIBET.verify s (.token t) now).details.signatureValid = true) := by
  constructor
  · simp only [TIBET.verify, TIBET.resolve]
  · intro hsig
    simp only [TIBET.verify, TIBET.resolve, hsig, decide_eq_true_eq]

/-- Witness for C10: a well-formed token that was never persisted (the store
is empty) still verifies with no error and a valid signature. -/
theorem verify_token_object_never_not_found_witness :
    (TIBET.verify (TIBET.init none)
      (.token (mkSimpleToken "ghost" "alice" .CREATED)) 0).error = none ∧
    (TIBET.verify (TIBET.init none)
      (.token (mkSimpleToken "ghost" "alice" .CREATED)) 0).details.signatureValid
      = true ∧
    mapGet (TIBET.init none).tokens "ghost" = none :=
  ⟨(verify_token_object_never_not_found (TIBET.init none)
      (mkSimpleToken "ghost" "alice" .CREATED) 0).1,
   (verify_token_object_never_not_found (TIBET.init none)
      (mkSimpleToken "ghost" "alice" .CREATED) 0).2
     (mkSimpleToken_wellformed "ghost" "alice" .CREATED),
   rfl⟩

/-! ## Claims about creation followed by verification -/

/-- C2 (amended): for creation inputs whose `parentId`, when present,
resolves in the store after insertion, and whose `expiresIn`, when supplied,
is nonnegative, `verify` immediately after `create` (same clock reading, no
intervening mutation) returns `valid: true` with `signatureValid`,
`notExpired` and `chainIntact` all true, and `actorTrusted` is false exactly
when the token's resolved actor is the anonymous default. -/
theorem verify_after_create (s : TIBETStore) (p : CreateParams)
    (newId : String) (now : Int)
    (hpar : ∀ pid, p.parentId = some pid →
      (mapGet (TIBET.createToken s p newId now).1.tokens pid).isSome = true)
    (hexp : ∀ e, p.expiresIn = some e → 0 ≤ e) :
    (TIBET.verify (TIBET.createToken s p newId now).1
      (.token (TIBET.createToken s p newId now).2) now).valid = true ∧
    (TIBET.verify (TIBET.createToken s p newId now).1
      (.token (TIBET.createToken s p newId now).2) now).details.signatureValid = true ∧
    (TIBET.verify (TIBET.createToken s p newId now).1
      (.token (TIBET.createToken s p newId now).2) now).details.notExpired = true ∧
    (TIBET.verify (TIBET.createToken s p newId now).1
      (.token (TIBET.createToken s p newId now).2) now).details.chainIntact = true ∧
    ((TIBET.verify (TIBET.createToken s p newId now).1
      (.token (TIBET.createToken s p newId now).2) now).details.actorTrusted = false
      ↔ jsOrStr p.actor s.defaultActor = "anonymous") := by
  have hsig : decide ((TIBET.createToken s p newId now).2.signature
      = TokenData.digest ((TIBET.createToken s p newId now).2.tokenData)) = true := by
    simp [createToken_snd, TIBETToken.tokenData]
  have hne : (match (TIBET.createToken s p newId now).2.expiresAt with
      | some e => decide (now < e) | none => true) = true := by
    rcases he : p.expiresIn with _ | e
    · simp [createToken_snd, he]
    · have h0 : 0 ≤ e := hexp e he
      by_cases hz : e = 0
      · simp [createToken_snd, he, hz]
      · have hpos : 0 < e := lt_of_le_of_ne h0 (Ne.symm hz)
        simp [createToken_snd, he, hz]
        omega
  have hci : (match (TIBET.createToken s p newId now).2.parentId with
      | some pid => (mapGet (TIBET.createToken s p newId now).1.tokens pid).isSome
      | none => true) = true := by
    rcases hp : p.parentId with _ | pid
    · have : (TIBET.createToken s p newId now).2.parentId = none := by
        simp [createToken_snd, hp]
      simp [this]
    · have h2 : (TIBET.createToken s p newId now).2.parentId = some pid := by
        simp [createToken_snd, hp]
      simp [h2]
      exact hpar pid hp
  rw [verify_token_valid, verify_token_signatureValid, verify_token_notExpired,
      verify_token_chainIntact, verify_token_actorTrusted]
  refine ⟨?_, hsig, hne, hci, ?_⟩
  · rw [hsig, hne, hci]
    rfl
  · simp [createToken_snd]

/-- Counterexample to C2 as stated: `expiresIn = -1` and a dangling
`parentId` are legal creation inputs, yet verifying immediately after
creating with them yields `valid = false` with `notExpired` and `chainIntact`
both false. -/
def c2params : CreateParams :=
  { type := .audit, what := .str "w", why := "y",
    parentId := some "missing", expiresIn := some (-1) }

/-- Counterexample theorem for C2. -/
theorem verify_after_create_counterexample :
    (TIBET.verify (TIBET.createToken (TIBET.init none) c2params "tok-2" 100).1
      (.token (TIBET.createToken (TIBET.init none) c2params "tok-2" 100).2) 100).valid
      = false ∧
    (TIBET.verify (TIBET.createToken (TIBET.init none) c2params "tok-2" 100).1
      (.token (TIBET.createToken (TIBET.init none) c2params "tok-2" 100).2) 100).details.notExpired
      = false ∧
    (TIBET.verify (TIBET.createToken (TIBET.init none) c2params "tok-2" 100).1
      (.token (TIBET.createToken (TIBET.init none) c2params "tok-2" 100).2) 100).details.chainIntact
      = false := by
  have hne : (TIBET.createToken (TIBET.init none) c2params "tok-2" 100).2.expiresAt
      = some 99 := by simp [createToken_snd, c2params]
  have hpi : (TIBET.createToken (TIBET.init none) c2params "tok-2" 100).2.parentId
      = some "missing" := by simp [createToken_snd, c2params]
  have hm : mapGet (TIBET.createToken (TIBET.init none) c2params "tok-2" 100).1.tokens
      "missing" = none := by
    rw [createToken_fst]
    simp [TIBET.init, mapSet, mapGet]
  rw [verify_token_valid, verify_token_notExpired, verify_token_chainIntact]
  simp [hne, hpi, hm]

/-- Witness for C2 (amended) at a concrete input: fresh store, actor alice,
no parent, `expiresIn = 5000`. -/
theorem verify_after_create_witness :
    (TIBET.verify (TIBET.createToken (TIBET.init none)
        { type := .audit, what := .str "w", why := "y",
          actor := some "alice", expiresIn := some 5000 } "tok-w2" 100).1
      (.token (TIBET.createToken (TIBET.init none)
        { type := .audit, what := .str "w", why := "y",
          actor := some "alice", expiresIn := some 5000 } "tok-w2" 100).2) 100).valid
      = true ∧
    ((TIBET.verify (TIBET.createToken (TIBET.init none)
        { type := .audit, what := .str "w", why := "y",
          actor := some "alice", expiresIn := some 5000 } "tok-w2" 100).1
      (.token (TIBET.createToken (TIBET.init none)
        { type := .audit, what := .str "w", why := "y",
          actor := some "alice", expiresIn := some 5000 } "tok-w2" 100).2) 100).details.actorTrusted = false
      ↔ jsOrStr (some "alice") (TIBET.init none).defaultActor = "anonymous") := by
  have h := verify_after_create (TIBET.init none)
    { type := .audit, what := .str "w", why := "y",
      actor := some "alice", expiresIn := some 5000 } "tok-w2" 100
    (by intro pid hpid; cases hpid)
    (by intro e he; cases he; decide)
  exact ⟨h.1, h.2.2.2.2⟩

/-- C4 (amended): a token created with `expiresIn = -1` verifies (at any time
at or after creation) with `notExpired: false`, `valid: false`, and a trust
score of at most 0.7 — the claim's bound of 0.6 is exceeded whenever the
actor is non-anonymous, since signatureValid (0.4), chainIntact (0.2) and
actorTrusted (0.1) can all still contribute. -/
theorem expired_create_verify (s : TIBETStore) (p : CreateParams)
    (newId : String) (now tnow : Int)
    (hexp : p.expiresIn = some (-1)) (ht : now ≤ tnow) :
    (TIBET.verify (TIBET.createToken s p newId now).1
      (.token (TIBET.createToken s p newId now).2) tnow).details.notExpired = false ∧
    (TIBET.verify (TIBET.createToken s p newId now).1
      (.token (TIBET.createToken s p newId now).2) tnow).valid = false ∧
    (TIBET.verify (TIBET.createToken s p newId now).1
      (.token (TIBET.createToken s p newId now).2) tnow).trustScore ≤ 7/10 := by
  have hea : (TIBET.createToken s p newId now).2.expiresAt = some (now + (-1)) := by
    simp [createToken_snd, hexp]
  have hne : (match (TIBET.createToken s p newId now).2.expiresAt with
      | some e => decide (tnow < e) | none => true) = false := by
    rw [hea]
    simp only [decide_eq_false_iff_not, not_lt]
    omega
  refine ⟨?_, ?_, ?_⟩
  · rw [verify_token_notExpired]
    exact hne
  · rw [verify_token_valid, hne]
    simp
  · rw [verify_token_trustScore, hne]
    cases hb1 : decide ((TIBET.createToken s p newId now).2.signature
        = TokenData.digest ((TIBET.createToken s p newId now).2.tokenData)) <;>
    cases hb2 : (match (TIBET.createToken s p newId now).2.parentId with
        | some pid => (mapGet (TIBET.createToken s p newId now).1.tokens pid).isSome
        | none => true) <;>
    cases hb3 : decide ((TIBET.createToken s p newId now).2.actor ≠ "anonymous") <;>
    norm_num

/-- Counterexample to C4 as stated: with a non-anonymous actor the trust
score of the expired token is 0.7, which is not ≤ 0.6. -/
def c4params : CreateParams :=
  { type := .audit, what := .str "w", why := "y",
    actor := some "did:jis:alice", expiresIn := some (-1) }

/-- Counterexample theorem for C4: the trust score bound 0.6 fails. -/
theorem expired_create_verify_counterexample :
    ¬ ((TIBET.verify (TIBET.createToken (TIBET.init none) c4params "tok-4" 100).1
      (.token (TIBET.createToken (TIBET.init none) c4params "tok-4" 100).2) 100).trustScore
      ≤ 6/10) := by
  have hsig : decide ((TIBET.createToken (TIBET.init none) c4params "tok-4" 100).2.signature
      = TokenData.digest ((TIBET.createToken (TIBET.init none) c4params "tok-4" 100).2.tokenData)) = true := by
    simp [createToken_snd, TIBETToken.tokenData]
  have hea : (TIBET.createToken (TIBET.init none) c4params "tok-4" 100).2.expiresAt
      = some 99 := by simp [createToken_snd, c4params]
  have hpi : (TIBET.createToken (TIBET.init none) c4params "tok-4" 100).2.parentId
      = none := by simp [createToken_snd, c4params]
  have hac : (TIBET.createToken (TIBET.init none) c4params "tok-4" 100).2.actor
      = "did:jis:alice" := by simp [createToken_snd, c4params, jsOrStr]
  rw [verify_token_trustScore, hsig, hea, hpi, hac]
  have hat : decide (("did:jis:alice" : String) ≠ "anonymous") = true := by decide
  rw [hat]
  norm_num

/-- Witness for C4 (amended) at a concrete input. -/
theorem expired_create_verify_witness :
    (TIBET.verify (TIBET.createToken (TIBET.init none) c4params "tok-4w" 100).1
      (.token (TIBET.createToken (TIBET.init none) c4params "tok-4w" 100).2) 100).details.notExpired
      = false ∧
    (TIBET.verify (TIBET.createToken (TIBET.init none) c4params "tok-4w" 100).1
      (.token (TIBET.createToken (TIBET.init none) c4params "tok-4w" 100).2) 100).valid
      = false ∧
    (TIBET.verify (TIBET.createToken (TIBET.init none) c4params "tok-4w" 100).1
      (.token (TIBET.createToken (TIBET.init none) c4params "tok-4w" 100).2) 100).trustScore
      ≤ 7/10 :=
  expired_create_verify (TIBET.init none) c4params "tok-4w" 100 100 rfl le_rfl

/-- C9 (amended): the created token's `expiresAt` is absent exactly when
`expiresIn` is not supplied or is zero (JS truthiness treats `0` like
`undefined`); for any other supplied duration, `expiresAt` equals the
creation time plus `expiresIn`. -/
theorem createToken_expiresAt (s : TIBETStore) (p : CreateParams)
    (newId : String) (now : Int) :
    ((TIBET.createToken s p newId now).2.expiresAt = none
      ↔ p.expiresIn = none ∨ p.expiresIn = some 0) ∧
    (∀ e, p.expiresIn = some e → e ≠ 0 →
      (TIBET.createToken s p newId now).2.expiresAt = some (now + e)) := by
  constructor
  · rw [createToken_snd]
    rcases he : p.expiresIn with _ | e
    · simp
    · by_cases hz : e = 0 <;> simp [hz]
  · intro e he hz
    rw [createToken_snd]
    simp [he, hz]

/-- Counterexample to C9 as stated: a supplied zero duration yields an absent
`expiresAt`, not `expiresAt = creation time + 0`. -/
def c9params : CreateParams :=
  { type := .audit, what := .str "w", why := "y", expiresIn := some 0 }

/-- Counterexample theorem for C9. -/
theorem createToken_expiresAt_counterexample :
    c9params.expiresIn = some 0 ∧
    (TIBET.createToken (TIBET.init none) c9params "tok-9" 100).2.expiresAt = none := by
  refine ⟨rfl, ?_⟩
  simp [createToken_snd, c9params]

/-- Witness for C9 (amended) at a concrete input: `expiresIn = 5000` gives
`expiresAt = 100 + 5000`. -/
theorem createToken_expiresAt_witness :
    (TIBET.createToken (TIBET.init none)
      { type := .audit, what := .str "w", why := "y", expiresIn := some 5000 }
      "tok-9w" 100).2.expiresAt = some (100 + 5000) :=
  (createToken_expiresAt (TIBET.init none)
    { type := .audit, what := .str "w", why := "y", expiresIn := some 5000 }
    "tok-9w" 100).2 5000 rfl (by decide)

/-! ## Claims about the Chain Walker -/

/-- C7: in a store containing A (no parent), B (parent A), C (parent B),
walking the chain from C — with any iteration budget of at least the three
loop iterations the walk needs — returns length 3, the tokens in
ancestor-to-descendant order [A, B, C], origin A and current C. -/
theorem getChain_three (s : TIBETStore) (aId bId cId : String)
    (A B C : TIBETToken) (fuel : Nat)
    (hA : mapGet s.tokens aId = some A) (hAp : A.parentId = none)
    (hB : mapGet s.tokens bId = some B) (hBp : B.parentId = some aId)
    (hC : mapGet s.tokens cId = some C) (hCp : C.parentId = some bId)
    (hfuel : 3 ≤ fuel) :
    TIBET.getChain s cId fuel =
      .chain { length := 3, tokens := [A, B, C], origin := A, current := C } := by
  obtain ⟨n, rfl⟩ : ∃ n, fuel = n + 3 := ⟨fuel - 3, by omega⟩
  have haux : getChainAux s.tokens (n + 3) C [] = some [A, B, C] := by
    rw [show n + 3 = (n + 2) + 1 from rfl, getChainAux, hCp]
    simp only [hB]
    rw [show n + 2 = (n + 1) + 1 from rfl, getChainAux, hBp]
    simp only [hA]
    rw [show n + 1 = n + 1 from rfl, getChainAux, hAp]
  have hres : TIBET.getChain s cId (n + 3)
      = match getChainAux s.tokens (n + 3) C [] with
        | none => ChainOutcome.diverged
        | some toks => ChainOutcome.chain
            { length := toks.length, tokens := toks,
              origin := toks.headD C, current := toks.getLastD C } := by
    rw [TIBET.getChain, hC]
  rw [hres, haux]
  rfl

/-- A three-token chain store for the C7 witness. -/
def chainTok (i : String) (par : Option String) : TIBETToken :=
  { tokenId := i, type := .audit, actor := "anonymous",
    provenance := sampleProv, timestamp := 0, state := .CREATED,
    signature := "s", parentId := par, expiresAt := none, metadata := none }

/-- The concrete A ← B ← C store. -/
def chainStore : TIBETStore :=
  { tokens := [("a", chainTok "a" none), ("b", chainTok "b" (some "a")),
               ("c", chainTok "c" (some "b"))],
    defaultActor := "anonymous" }

/-- Witness for C7 at the concrete A ← B ← C store with fuel 3. -/
theorem getChain_three_witness :
    TIBET.getChain chainStore "c" 3 =
      .chain { length := 3,
               tokens := [chainTok "a" none, chainTok "b" (some "a"),
                          chainTok "c" (some "b")],
               origin := chainTok "a" none, current := chainTok "c" (some "b") } :=
  getChain_three chainStore "a" "b" "c"
    (chainTok "a" none) (chainTok "b" (some "a")) (chainTok "c" (some "b")) 3
    rfl rfl rfl rfl rfl rfl (by decide)

/-- A self-parented token: its `parentId` is its own id.  Such a token cannot
be minted by `createToken` (ids are fresh), but `import` accepts arbitrary
token records, so stores containing it are reachable. -/
def loopToken : TIBETToken :=
  { tokenId := "x", type := .audit, actor := "anonymous",
    provenance := sampleProv, timestamp := 0, state := .CREATED,
    signature := "s", parentId := some "x", expiresAt := none, metadata := none }

/-- A store whose only token is its own parent. -/
def loopStore : TIBETStore :=
  { tokens := [("x", loopToken)], defaultActor := "anonymous" }

/-- On the self-loop store the walk never completes, whatever the bound. -/
theorem getChainAux_loop (fuel : Nat) :
    ∀ acc, getChainAux loopStore.tokens fuel loopToken acc = none := by
  induction fuel with
  | zero => intro acc; rfl
  | succ n ih =>
    intro acc
    rw [getChainAux]
    exact ih (loopToken :: acc)

/-- C5 (behaviour of the source at the failing input): `getChain` on a store
whose parent links form a cycle never terminates — for every iteration bound
the walk is still running — contradicting the claim that the Chain Walker
treats a detected cycle as a broken chain rather than looping forever.  The
source loop (tibet.ts 207-212) has no visited-id tracking or other guard. -/
theorem getChain_diverges_on_cycle (fuel : Nat) :
    TIBET.getChain loopStore "x" fuel = .diverged := by
  have hx : TIBET.getChain loopStore "x" fuel
      = match getChainAux loopStore.tokens fuel loopToken [] with
        | none => ChainOutcome.diverged
        | some toks => ChainOutcome.chain
            { length := toks.length, tokens := toks,
              origin := toks.headD loopToken, current := toks.getLastD loopToken } := rfl
  rw [hx, getChainAux_loop fuel []]

/-! ## Claims about the Consent Orchestrator -/

/-- C8 (amended): `accept` fails with a propagated error when `proposalId` is
unknown, and with the authorization error when the original token's
`content.to` field is present, truthy (e.g. a non-empty string) and differs
from `acceptorDid`; in both failure cases the whole orchestrator state — the
token store included — is returned unchanged, so no token's state changes and
no token is created. -/
theorem accept_failure_paths (st : ConsentState) (pid did newId : String)
    (now : Int) :
    (mapGet st.proposals pid = none →
      BilateralConsentManager.accept st pid did newId now
        = (st, .error ("Proposal not found: " ++ pid))) ∧
    (∀ pt v, mapGet st.proposals pid = some pt →
      objGet? pt.provenance.what "to" = some v →
      jsTruthy v = true → jsStrictEqStr v did = false →
      BilateralConsentManager.accept st pid did newId now
        = (st, .error "Acceptor does not match intended recipient")) := by
  constructor
  · intro h
    simp [BilateralConsentManager.accept, h]
  · intro pt v hpt hto htr hne
    simp [BilateralConsentManager.accept, hpt, hto, htr, hne]

/-- The proposal token used by the C8 witness: `content.to` is bob. -/
def c8tok : TIBETToken :=
  { tokenId := "p8", type := .bilateral_consent, actor := "did:jis:alice",
    provenance :=
      { what := .obj [("action", .str "share-x"), ("from", .str "did:jis:alice"),
                      ("to", .str "did:jis:bob")],
        withParties := some ["did:jis:alice", "did:jis:bob"],
        whereCtx := none, why := "reason" },
    timestamp := 100, state := .PROPOSED, signature := "s",
    parentId := none, expiresAt := none, metadata := none }

/-- An orchestrator state holding the C8 witness proposal. -/
def c8state : ConsentState :=
  { tibet := { tokens := [("p8", c8tok)], defaultActor := "did:jis:alice" },
    proposals := [("p8", c8tok)] }

/-- Witness for C8 (amended): carol cannot accept bob's proposal, an unknown
proposal id fails, and both failures leave the state untouched. -/
theorem accept_failure_paths_witness :
    BilateralConsentManager.accept c8state "p8" "did:jis:carol" "a8" 200
      = (c8state, .error "Acceptor does not match intended recipient") ∧
    BilateralConsentManager.accept c8state "nope" "did:jis:carol" "a8" 200
      = (c8state, .error ("Proposal not found: " ++ "nope")) :=
  ⟨(accept_failure_paths c8state "p8" "did:jis:carol" "a8" 200).2
      c8tok (.str "did:jis:bob") rfl rfl (by decide) (by decide),
   (accept_failure_paths c8state "nope" "did:jis:carol" "a8" 200).1 rfl⟩

/-- The proposal token for the C8 counterexample: `content.to` is present but
is the empty string. -/
def c8etok : TIBETToken :=
  { tokenId := "p8e", type := .bilateral_consent, actor := "did:jis:alice",
    provenance :=
      { what := .obj [("action", .str "share-x"), ("from", .str "did:jis:alice"),
                      ("to", .str "")],
        withParties := some ["did:jis:alice", ""],
        whereCtx := none, why := "reason" },
    timestamp := 100, state := .PROPOSED, signature := "s",
    parentId := none, expiresAt := none, metadata := none }

/-- An orchestrator state holding the empty-recipient proposal. -/
def c8estate : ConsentState :=
  { tibet := { tokens := [("p8e", c8etok)], defaultActor := "did:jis:alice" },
    proposals := [("p8e", c8etok)] }

/-- Counterexample to C8 as stated: the `content.to` field is present (the
empty string) and differs from the acceptor, yet `accept` succeeds — JS
truthiness silently skips the recipient check for falsy values. -/
theorem accept_failure_paths_counterexample :
    objGet? c8etok.provenance.what "to" = some (.str "") ∧
    (BilateralConsentManager.accept c8estate "p8e" "did:jis:carol" "a8" 200).2.isOk
      = true := by
  exact ⟨rfl, rfl⟩

/-- C3 scenario data: alice proposes to bob. -/
def c3consent : BilateralConsent :=
  { fromDid := "did:jis:alice", toDid := "did:jis:bob",
    action := "share-x", purpose := "reason" }

/-- C3 scenario: the initial orchestrator. -/
def c3state0 : ConsentState := BilateralConsentManager.init (some "did:jis:alice")

/-- C3 scenario: after `propose`. -/
def c3afterPropose : ConsentState × TIBETToken :=
  BilateralConsentManager.propose c3state0 c3consent "prop-1" 100

/-- C3 scenario: after bob rejects the proposal. -/
def c3afterReject : ConsentState × Except String ConsentResponse :=
  BilateralConsentManager.reject c3afterPropose.1 "prop-1" "did:jis:bob"
    (some "no thanks") "rej-1" 200

/-- C3 scenario: after bob then accepts the already-rejected proposal. -/
def c3afterAccept : ConsentState × Except String ConsentResponse :=
  BilateralConsentManager.accept c3afterReject.1 "prop-1" "did:jis:bob"
    "acc-1" 300

/-- C3 (behaviour of the source at the failing input): after a successful
`reject` the proposal token's state is REJECTED — a terminal state — yet a
subsequent `accept` on the same proposal succeeds and transitions the
proposal's state to ACCEPTED, contradicting the claim that no orchestrator
operation changes a proposal's state once terminal.  Neither `accept` nor
`reject` (consent.ts 90-131, 138-179) inspects the current state before
overwriting it. -/
theorem reject_then_accept_flips_terminal_state :
    ((mapGet c3afterReject.1.tibet.tokens "prop-1").map TIBETToken.state
      = some TIBETState.REJECTED) ∧
    ((mapGet c3afterAccept.1.tibet.tokens "prop-1").map TIBETToken.state
      = some TIBETState.ACCEPTED) ∧
    (c3afterAccept.2.toOption.map ConsentResponse.accepted = some true) := by
  refine ⟨rfl, rfl, rfl⟩

end DidJis
